import Mathlib

/-!
Verification of the streaming element parsers of `rust_excel_reader`.

The development shallowly embeds the per-element raw parsers of
`src/raw/spreadsheet/sheet/worksheet/data_validation.rs` and
`src/raw/spreadsheet/sheet/worksheet/sheet_view.rs`, together with the
raw→processed conversion of
`src/processed/spreadsheet/sheet/worksheet/data_validation.rs`.

The forward-only XML cursor (`crate::excel::XmlReader`, a `quick_xml` reader)
is modelled as a finite list of events carrying local names, as described in
spec §6: a start-tag with its attribute list, an end-tag, or a text node.
End-of-input (`Event::Eof`) is represented by exhaustion of the list; the
underlying `quick_xml` reader keeps returning `Eof` once the input is
exhausted, so a Rust loop that does not handle `Eof` spins forever — this is
modelled by the `diverge` parse result.  Attribute and element names in the
model stand for the *local* names (`local_name()` in the source strips any
namespace prefix before comparison).  Text and attribute values are modelled
as Lean `String`s; the only UTF-8 decode failure path of the source cannot
arise for values that are already strings.
-/

/-- An XML event as delivered by the forward-only cursor (spec §6): start-tag
with local name and attribute list, end-tag with local name, or text.
End-of-input is the empty event list. -/
inductive Event where
  | startTag : String → List (String × String) → Event
  | endTag : String → Event
  | text : String → Event
deriving DecidableEq, Repr

/-- Result of running one element parser on an event stream: success with the
parsed value and the remaining events, a fatal error carrying the `bail!`
message, or divergence (the Rust loop never returns). -/
inductive PRes (α : Type) where
  | ok : α → List Event → PRes α
  | err : String → PRes α
  | diverge : PRes α
deriving DecidableEq, Repr

/-- Modelled from the spec: `crate::helper::string_to_bool` is not under
`src/`.  Spec §4.1: boolean coercion accepts case-sensitive `"1"` and
`"true"` as true, `"0"` and `"false"` as false; anything else yields
no value. -/
def string_to_bool (s : String) : Option Bool :=
  if s = "1" ∨ s = "true" then some true
  else if s = "0" ∨ s = "false" then some false
  else none

/-- Model of Rust's `str::parse::<bool>` (the `FromStr` instance of `bool` in
the Rust standard library), used by `XlsxPane::load` for the thin-split-bar
attributes: it accepts exactly `"true"` and `"false"`, and any other text
fails to parse. -/
def rust_parse_bool (s : String) : Option Bool :=
  if s = "true" then some true
  else if s = "false" then some false
  else none

/-- Numeric value of a digit string (least significant digit last). -/
def digitsVal (cs : List Char) : Nat :=
  cs.foldl (fun n c => 10 * n + (c.toNat - 48)) 0

/-- A non-empty all-digit character list parses to its value; anything else
yields no value. -/
def digitsToNat (cs : List Char) : Option Nat :=
  if cs ≠ [] ∧ cs.all Char.isDigit then some (digitsVal cs) else none

/-- Split a character list at the first `'.'`, if any. -/
def splitDot : List Char → List Char × Option (List Char)
  | [] => ([], none)
  | c :: rest =>
      if c = '.' then ([], some rest)
      else
        let p := splitDot rest
        (c :: p.1, p.2)

/-- Value of an unsigned decimal numeral, optionally with a fractional part,
as an exact rational. -/
def decValue (cs : List Char) : Option ℚ :=
  match splitDot cs with
  | (ip, none) => (digitsToNat ip).map (fun n => (n : ℚ))
  | (ip, some fp) =>
      match digitsToNat ip, digitsToNat fp with
      | some n, some f => some ((n : ℚ) + (f : ℚ) / (10 : ℚ) ^ fp.length)
      | _, _ => none

/-- Modelled from the spec: `crate::helper::string_to_float` is not under
`src/`.  Spec §4.1: float coercion parses via the target numeric grammar and
a parse failure yields no value, not an error.  The model covers plain
(optionally signed) decimal notation, with the value represented as an exact
rational; the scenario inputs of the spec (`"2310"`, `"2070"`) are integers,
which `f64` represents exactly. -/
def string_to_float (s : String) : Option ℚ :=
  match s.toList with
  | '-' :: cs => (decValue cs).map (fun q => -q)
  | cs => decValue cs

/-- Modelled from the spec: `crate::helper::string_to_unsignedint` is not
under `src/`.  Spec §4.1: unsigned-integer coercion parses via the target
numeric grammar (`u64`, which rejects values of 2^64 or more) and a parse
failure yields no value, not an error. -/
def string_to_unsignedint (s : String) : Option Nat :=
  match digitsToNat s.toList with
  | some n => if n < 2 ^ 64 then some n else none
  | none => none

/-- Raw layer: `XlsxDataValidation`
(`src/raw/spreadsheet/sheet/worksheet/data_validation.rs`, lines 17-61).
Every attribute and child is optional; absence means "not present in the
XML". -/
structure XlsxDataValidation where
  formula1 : Option String
  formula2 : Option String
  allow_blank : Option Bool
  error_message : Option String
  error_title : Option String
  operator : Option String
  prompt : Option String
  prompt_title : Option String
  show_drop_down : Option Bool
  show_error_message : Option Bool
  show_input_message : Option Bool
  sqref : Option String
  type : Option String
deriving DecidableEq, Repr

/-- The all-`None` initializer of `XlsxDataValidation::load` (lines 65-79). -/
def XlsxDataValidation.empty : XlsxDataValidation :=
  { formula1 := none
    formula2 := none
    allow_blank := none
    error_message := none
    error_title := none
    operator := none
    prompt := none
    prompt_title := none
    show_drop_down := none
    show_error_message := none
    show_input_message := none
    sqref := none
    type := none }

/-- One step of the attribute phase of `XlsxDataValidation::load`
(lines 82-128): dispatch on the attribute's local name, assign the decoded
value to the matching field, and ignore unrecognized attributes. -/
def XlsxDataValidation.applyAttr (dv : XlsxDataValidation) (a : String × String) :
    XlsxDataValidation :=
  match a.1 with
  | "allowBlank" => { dv with allow_blank := string_to_bool a.2 }
  | "error" => { dv with error_message := some a.2 }
  | "errorTitle" => { dv with error_title := some a.2 }
  | "operator" => { dv with operator := some a.2 }
  | "prompt" => { dv with prompt := some a.2 }
  | "promptTitle" => { dv with prompt_title := some a.2 }
  | "showDropDown" => { dv with show_drop_down := string_to_bool a.2 }
  | "showErrorMessage" => { dv with show_error_message := string_to_bool a.2 }
  | "showInputMessage" => { dv with show_input_message := string_to_bool a.2 }
  | "sqref" => { dv with sqref := some a.2 }
  | "type" => { dv with type := some a.2 }
  | _ => dv

/-- `XlsxDataValidation::load_formula` (lines 152-168): consume events until
a text event (returned verbatim) or an end-tag named `formula1` or `formula2`
(returns the empty string).  The loop has no `Event::Eof` arm, so end of
input falls into the catch-all `_ => ()` and the loop re-reads `Eof`
forever: the empty stream maps to `diverge`. -/
def XlsxDataValidation.load_formula : List Event → PRes String
  | [] => .diverge
  | Event.text s :: rest => .ok s rest
  | Event.endTag n :: rest =>
      if n = "formula1" ∨ n = "formula2" then .ok "" rest
      else XlsxDataValidation.load_formula rest
  | Event.startTag _ _ :: rest => XlsxDataValidation.load_formula rest

theorem XlsxDataValidation.load_formula_len :
    ∀ {evs : List Event} {s rest}, XlsxDataValidation.load_formula evs = .ok s rest →
      rest.length < evs.length := by
  intro evs
  induction evs with
  | nil => intro s rest h; simp [XlsxDataValidation.load_formula] at h
  | cons e tl ih =>
    intro s rest h
    cases e with
    | text t =>
      simp [XlsxDataValidation.load_formula] at h
      simp [h.2]
    | endTag n =>
      rw [XlsxDataValidation.load_formula] at h
      split at h
      · cases h; simp
      · exact Nat.lt_trans (ih h) (Nat.lt_succ_self _)
    | startTag n a =>
      rw [XlsxDataValidation.load_formula] at h
      exact Nat.lt_trans (ih h) (Nat.lt_succ_self _)

/-- The child-phase event loop of `XlsxDataValidation::load` (lines 131-147):
a `formula1`/`formula2` start-tag dispatches to `load_formula` and stores the
result, the element's own end-tag `dataValidation` returns the accumulated
structure, end of input is a fatal error naming the element, and any other
event is ignored. -/
def XlsxDataValidation.childLoop (dv : XlsxDataValidation) : List Event → PRes XlsxDataValidation
  | [] => .err "unexpected end of file at `dataValidation`"
  | Event.startTag n _ :: rest =>
      if n = "formula1" then
        match h : XlsxDataValidation.load_formula rest with
        | .ok s rest2 => XlsxDataValidation.childLoop { dv with formula1 := some s } rest2
        | .err m => .err m
        | .diverge => .diverge
      else if n = "formula2" then
        match h : XlsxDataValidation.load_formula rest with
        | .ok s rest2 => XlsxDataValidation.childLoop { dv with formula2 := some s } rest2
        | .err m => .err m
        | .diverge => .diverge
      else XlsxDataValidation.childLoop dv rest
  | Event.endTag n :: rest =>
      if n = "dataValidation" then .ok dv rest else XlsxDataValidation.childLoop dv rest
  | Event.text _ :: rest => XlsxDataValidation.childLoop dv rest
termination_by evs => evs.length
decreasing_by
  · exact Nat.lt_trans (XlsxDataValidation.load_formula_len h) (Nat.lt_succ_self _)
  · exact Nat.lt_trans (XlsxDataValidation.load_formula_len h) (Nat.lt_succ_self _)
  · simp
  · simp
  · simp

/-- `XlsxDataValidation::load` (lines 64-150): attribute phase (a left fold
over the start-tag's attribute list in document order) followed by the child
phase. -/
def XlsxDataValidation.load (attrs : List (String × String)) (evs : List Event) :
    PRes XlsxDataValidation :=
  XlsxDataValidation.childLoop
    (attrs.foldl XlsxDataValidation.applyAttr XlsxDataValidation.empty) evs

theorem XlsxDataValidation.childLoop_len (dv : XlsxDataValidation) (evs : List Event) :
    ∀ {dv2 rest}, XlsxDataValidation.childLoop dv evs = .ok dv2 rest →
      rest.length < evs.length := by
  induction dv, evs using XlsxDataValidation.childLoop.induct with
  | case1 dv => intro dv2 rest h; simp [XlsxDataValidation.childLoop] at h
  | case2 dv a rest s rest2 hf ih =>
    intro dv2 rest' h
    rw [XlsxDataValidation.childLoop, if_pos rfl] at h
    split at h
    · next s2 rest3 heq =>
        rw [hf] at heq
        simp only [PRes.ok.injEq] at heq
        obtain ⟨hs, hr⟩ := heq
        subst hs; subst hr
        exact Nat.lt_trans (Nat.lt_trans (ih h) (XlsxDataValidation.load_formula_len hf))
          (Nat.lt_succ_self _)
    · next m heq => rw [hf] at heq; simp at heq
    · next heq => rw [hf] at heq; simp at heq
  | case3 dv a rest m hf =>
    intro dv2 rest' h
    rw [XlsxDataValidation.childLoop, if_pos rfl] at h
    split at h
    · next s2 rest3 heq => rw [hf] at heq; simp at heq
    · next m2 heq => simp at h
    · next heq => simp at h
  | case4 dv a rest hf =>
    intro dv2 rest' h
    rw [XlsxDataValidation.childLoop, if_pos rfl] at h
    split at h
    · next s2 rest3 heq => rw [hf] at heq; simp at heq
    · next m2 heq => simp at h
    · next heq => simp at h
  | case5 dv a rest s rest2 hf hne ih =>
    intro dv2 rest' h
    rw [XlsxDataValidation.childLoop, if_neg hne, if_pos rfl] at h
    split at h
    · next s2 rest3 heq =>
        rw [hf] at heq
        simp only [PRes.ok.injEq] at heq
        obtain ⟨hs, hr⟩ := heq
        subst hs; subst hr
        exact Nat.lt_trans (Nat.lt_trans (ih h) (XlsxDataValidation.load_formula_len hf))
          (Nat.lt_succ_self _)
    · next m heq => rw [hf] at heq; simp at heq
    · next heq => rw [hf] at heq; simp at heq
  | case6 dv a rest m hf hne =>
    intro dv2 rest' h
    rw [XlsxDataValidation.childLoop, if_neg hne, if_pos rfl] at h
    split at h
    · next s2 rest3 heq => rw [hf] at heq; simp at heq
    · next m2 heq => simp at h
    · next heq => simp at h
  | case7 dv a rest hf hne =>
    intro dv2 rest' h
    rw [XlsxDataValidation.childLoop, if_neg hne, if_pos rfl] at h
    split at h
    · next s2 rest3 heq => rw [hf] at heq; simp at heq
    · next m2 heq => simp at h
    · next heq => simp at h
  | case8 dv n a rest hn1 hn2 ih =>
    intro dv2 rest' h
    rw [XlsxDataValidation.childLoop, if_neg hn1, if_neg hn2] at h
    exact Nat.lt_trans (ih h) (Nat.lt_succ_self _)
  | case9 dv rest =>
    intro dv2 rest' h
    rw [XlsxDataValidation.childLoop, if_pos rfl] at h
    simp only [PRes.ok.injEq] at h
    obtain ⟨_, hr⟩ := h
    subst hr
    simp
  | case10 dv n rest hn ih =>
    intro dv2 rest' h
    rw [XlsxDataValidation.childLoop, if_neg hn] at h
    exact Nat.lt_trans (ih h) (Nat.lt_succ_self _)
  | case11 dv t rest ih =>
    intro dv2 rest' h
    rw [XlsxDataValidation.childLoop] at h
    exact Nat.lt_trans (ih h) (Nat.lt_succ_self _)

theorem XlsxDataValidation.load_len {attrs : List (String × String)} {evs : List Event}
    {dv rest} (h : XlsxDataValidation.load attrs evs = .ok dv rest) :
    rest.length < evs.length :=
  XlsxDataValidation.childLoop_len _ _ h

/-- Processed layer: `DataValidation`
(`src/processed/spreadsheet/sheet/worksheet/data_validation.rs`, lines 4-45).
Booleans with a documented OOXML default of `false` are non-optional, and
`sqref` and `type` are non-optional strings. -/
structure DataValidation where
  allow_blank : Bool
  error_message : Option String
  error_title : Option String
  formula1 : Option String
  formula2 : Option String
  operator : Option String
  prompt : Option String
  prompt_title : Option String
  show_drop_down : Bool
  show_error_message : Bool
  show_input_message : Bool
  sqref : String
  type : String
deriving DecidableEq, Repr

/-- `DataValidation::from_raw` (lines 48-64): pure raw→processed conversion.
`unwrap_or(false)` is `Option.getD false` and `unwrap_or_default()` on a
`String` is `Option.getD ""`. -/
def DataValidation.from_raw (raw : XlsxDataValidation) : DataValidation :=
  { allow_blank := raw.allow_blank.getD false
    error_message := raw.error_message
    error_title := raw.error_title
    formula1 := raw.formula1
    formula2 := raw.formula2
    operator := raw.operator
    prompt := raw.prompt
    prompt_title := raw.prompt_title
    show_drop_down := raw.show_drop_down.getD false
    show_error_message := raw.show_error_message.getD false
    show_input_message := raw.show_input_message.getD false
    sqref := raw.sqref.getD ""
    type := raw.type.getD "" }

/-- Raw layer: `XlsxDataValidations`
(`src/raw/spreadsheet/sheet/worksheet/data_validation.rs`, lines 183-194):
the container owns its rules in document order, plus an optional `count`. -/
structure XlsxDataValidations where
  data_validations : List XlsxDataValidation
  count : Option Nat
deriving DecidableEq, Repr

/-- The event loop of `XlsxDataValidations::load` (lines 196-219): a
`dataValidation` start-tag dispatches to `XlsxDataValidation::load` and
pushes the result, the `dataValidations` end-tag returns the accumulated
container, end of input is a fatal error naming the element, and any other
event is ignored.  Note the function receives no start-tag of its own and
never touches `count`. -/
def XlsxDataValidations.loadLoop (acc : XlsxDataValidations) :
    List Event → PRes XlsxDataValidations
  | [] => .err "unexpected end of file at `dataValidations`"
  | Event.startTag n attrs :: rest =>
      if n = "dataValidation" then
        match h : XlsxDataValidation.load attrs rest with
        | .ok dv rest2 =>
            XlsxDataValidations.loadLoop
              { acc with data_validations := acc.data_validations ++ [dv] } rest2
        | .err m => .err m
        | .diverge => .diverge
      else XlsxDataValidations.loadLoop acc rest
  | Event.endTag n :: rest =>
      if n = "dataValidations" then .ok acc rest else XlsxDataValidations.loadLoop acc rest
  | Event.text _ :: rest => XlsxDataValidations.loadLoop acc rest
termination_by evs => evs.length
decreasing_by
  · exact Nat.lt_trans (XlsxDataValidation.load_len h) (Nat.lt_succ_self _)
  · simp
  · simp
  · simp

/-- `XlsxDataValidations::load` (lines 196-219): start from the empty vector
and `count: None` initializer (lines 198-201) and run the event loop. -/
def XlsxDataValidations.load (evs : List Event) : PRes XlsxDataValidations :=
  XlsxDataValidations.loadLoop { data_validations := [], count := none } evs

/-- Raw layer: `XlsxPane`
(`src/raw/spreadsheet/sheet/worksheet/sheet_view.rs`, lines 67-116).
Split offsets are fractional (1/20th of a point) for `xSplit`/`ySplit` and
pixel counts for `splitHorizontal`/`splitVertical`. -/
structure XlsxPane where
  active_pane : Option String
  state : Option String
  top_left_cell : Option String
  x_split : Option ℚ
  y_split : Option ℚ
  split_horizontal : Option Nat
  split_vertical : Option Nat
  thin_horizontal : Option Bool
  thin_vertical : Option Bool
deriving DecidableEq, Repr

/-- The all-`None` initializer of `XlsxPane::load` (lines 120-130). -/
def XlsxPane.empty : XlsxPane :=
  { active_pane := none
    state := none
    top_left_cell := none
    x_split := none
    y_split := none
    split_horizontal := none
    split_vertical := none
    thin_horizontal := none
    thin_vertical := none }

/-- One step of the attribute loop of `XlsxPane::load` (lines 133-174).
The numeric and boolean attributes assign only when coercion succeeds
(`if let Some(..) = .. { .. }`), leaving the field untouched on a miss;
the thin-split-bar flags use `value.parse::<bool>().ok()`, not
`string_to_bool`. -/
def XlsxPane.applyAttr (p : XlsxPane) (a : String × String) : XlsxPane :=
  match a.1 with
  | "activePane" => { p with active_pane := some a.2 }
  | "state" => { p with state := some a.2 }
  | "topLeftCell" => { p with top_left_cell := some a.2 }
  | "xSplit" =>
      match string_to_float a.2 with
      | some x => { p with x_split := some x }
      | none => p
  | "ySplit" =>
      match string_to_float a.2 with
      | some y => { p with y_split := some y }
      | none => p
  | "splitHorizontal" =>
      match string_to_unsignedint a.2 with
      | some v => { p with split_horizontal := some v }
      | none => p
  | "splitVertical" =>
      match string_to_unsignedint a.2 with
      | some v => { p with split_vertical := some v }
      | none => p
  | "thinHorizontal" =>
      match rust_parse_bool a.2 with
      | some b => { p with thin_horizontal := some b }
      | none => p
  | "thinVertical" =>
      match rust_parse_bool a.2 with
      | some b => { p with thin_vertical := some b }
      | none => p
  | _ => p

/-- `XlsxPane::load` (lines 119-177): a pure pass over the start-tag's
attribute list; no child phase.  The only failure path of the source is an
invalid UTF-8 attribute value, which cannot arise for values modelled as
strings. -/
def XlsxPane.load (attrs : List (String × String)) : XlsxPane :=
  attrs.foldl XlsxPane.applyAttr XlsxPane.empty

/-- Raw layer: `XlsxSheetView` (lines 26-34): only the optional `pane` child
is represented. -/
structure XlsxSheetView where
  pane : Option XlsxPane
deriving DecidableEq, Repr

/-- Model of `quick_xml`'s `Reader::read_to_end_into` as used at line 50 of
`sheet_view.rs`: skip events until the matching end-tag, tracking the depth
of nested same-named elements; reaching end of input first is an error
(`none`). -/
def read_to_end_into (name : String) (depth : Nat) : List Event → Option (List Event)
  | [] => none
  | Event.startTag n _ :: rest =>
      if n = name then read_to_end_into name (depth + 1) rest
      else read_to_end_into name depth rest
  | Event.endTag n :: rest =>
      if n = name then
        match depth with
        | 0 => some rest
        | d + 1 => read_to_end_into name d rest
      else read_to_end_into name depth rest
  | Event.text _ :: rest => read_to_end_into name depth rest

theorem read_to_end_into_len {name : String} :
    ∀ {evs : List Event} {depth rest}, read_to_end_into name depth evs = some rest →
      rest.length < evs.length := by
  intro evs
  induction evs with
  | nil => intro depth rest h; simp [read_to_end_into] at h
  | cons e tl ih =>
    intro depth rest h
    cases e with
    | startTag n a =>
      rw [read_to_end_into.eq_def] at h
      simp only [] at h
      split at h
      · exact Nat.lt_trans (ih h) (Nat.lt_succ_self _)
      · exact Nat.lt_trans (ih h) (Nat.lt_succ_self _)
    | endTag n =>
      rw [read_to_end_into.eq_def] at h
      simp only [] at h
      split at h
      · split at h
        · cases h; simp
        · exact Nat.lt_trans (ih h) (Nat.lt_succ_self _)
      · exact Nat.lt_trans (ih h) (Nat.lt_succ_self _)
    | text t =>
      rw [read_to_end_into.eq_def] at h
      simp only [] at h
      exact Nat.lt_trans (ih h) (Nat.lt_succ_self _)

/-- The event loop of `XlsxSheetView::load` (lines 43-57): a `pane` start-tag
parses the pane from its attributes and then skips to the end of the `pane`
subtree, the `sheetView` end-tag returns the accumulated view, end of input
is a fatal error naming the element, and any other event is ignored.  The
error message of the skip step stands for the `quick_xml` error propagated
verbatim by the `?` at line 50. -/
def XlsxSheetView.loadLoop (sv : XlsxSheetView) : List Event → PRes XlsxSheetView
  | [] => .err "unexpected end of file at `sheetView`"
  | Event.startTag n attrs :: rest =>
      if n = "pane" then
        match h : read_to_end_into "pane" 0 rest with
        | some rest2 => XlsxSheetView.loadLoop { sv with pane := some (XlsxPane.load attrs) } rest2
        | none => .err "ill-formed document: missing end tag `pane`"
      else XlsxSheetView.loadLoop sv rest
  | Event.endTag n :: rest =>
      if n = "sheetView" then .ok sv rest else XlsxSheetView.loadLoop sv rest
  | Event.text _ :: rest => XlsxSheetView.loadLoop sv rest
termination_by evs => evs.length
decreasing_by
  · exact Nat.lt_trans (read_to_end_into_len h) (Nat.lt_succ_self _)
  · simp
  · simp
  · simp

/-- `XlsxSheetView::load` (lines 37-60): start from the `pane: None`
initializer and run the event loop.  The function ignores its own start-tag's
attributes. -/
def XlsxSheetView.load (evs : List Event) : PRes XlsxSheetView :=
  XlsxSheetView.loadLoop { pane := none } evs

theorem XlsxDataValidations.loadLoop_count (acc : XlsxDataValidations) (evs : List Event) :
    ∀ {r rest}, XlsxDataValidations.loadLoop acc evs = .ok r rest → r.count = acc.count := by
  induction acc, evs using XlsxDataValidations.loadLoop.induct with
  | case1 acc => intro r rest h; simp [XlsxDataValidations.loadLoop] at h
  | case2 acc a rest dv rest2 hf ih =>
    intro r rest' h
    rw [XlsxDataValidations.loadLoop, if_pos rfl] at h
    split at h
    · next dv2 rest3 heq =>
        rw [hf] at heq
        simp only [PRes.ok.injEq] at heq
        obtain ⟨hs, hr⟩ := heq
        subst hs; subst hr
        exact ih h
    · next m heq => rw [hf] at heq; simp at heq
    · next heq => rw [hf] at heq; simp at heq
  | case3 acc a rest m hf =>
    intro r rest' h
    rw [XlsxDataValidations.loadLoop, if_pos rfl] at h
    split at h
    · next dv2 rest3 heq => rw [hf] at heq; simp at heq
    · next m2 heq => simp at h
    · next heq => simp at h
  | case4 acc a rest hf =>
    intro r rest' h
    rw [XlsxDataValidations.loadLoop, if_pos rfl] at h
    split at h
    · next dv2 rest3 heq => rw [hf] at heq; simp at heq
    · next m2 heq => simp at h
    · next heq => simp at h
  | case5 acc n a rest hn ih =>
    intro r rest' h
    rw [XlsxDataValidations.loadLoop, if_neg hn] at h
    exact ih h
  | case6 acc rest =>
    intro r rest' h
    rw [XlsxDataValidations.loadLoop, if_pos rfl] at h
    simp only [PRes.ok.injEq] at h
    obtain ⟨hr, _⟩ := h
    subst hr
    rfl
  | case7 acc n rest hn ih =>
    intro r rest' h
    rw [XlsxDataValidations.loadLoop, if_neg hn] at h
    exact ih h
  | case8 acc t rest ih =>
    intro r rest' h
    rw [XlsxDataValidations.loadLoop] at h
    exact ih h

/-- The attribute phase of `XlsxDataValidation::load` never assigns the
`formula1` child field (it is only set in the child phase). -/
theorem XlsxDataValidation.applyAttr_formula1 (dv : XlsxDataValidation) (a : String × String) :
    (XlsxDataValidation.applyAttr dv a).formula1 = dv.formula1 := by
  unfold XlsxDataValidation.applyAttr
  split <;> rfl

/-- The attribute phase of `XlsxDataValidation::load` never assigns the
`formula2` child field. -/
theorem XlsxDataValidation.applyAttr_formula2 (dv : XlsxDataValidation) (a : String × String) :
    (XlsxDataValidation.applyAttr dv a).formula2 = dv.formula2 := by
  unfold XlsxDataValidation.applyAttr
  split <;> rfl

theorem XlsxDataValidation.foldl_applyAttr_formula1 (attrs : List (String × String)) :
    ∀ dv : XlsxDataValidation,
      (attrs.foldl XlsxDataValidation.applyAttr dv).formula1 = dv.formula1 := by
  induction attrs with
  | nil => intro dv; rfl
  | cons a tl ih =>
    intro dv
    rw [List.foldl_cons, ih, XlsxDataValidation.applyAttr_formula1]

theorem XlsxDataValidation.foldl_applyAttr_formula2 (attrs : List (String × String)) :
    ∀ dv : XlsxDataValidation,
      (attrs.foldl XlsxDataValidation.applyAttr dv).formula2 = dv.formula2 := by
  induction attrs with
  | nil => intro dv; rfl
  | cons a tl ih =>
    intro dv
    rw [List.foldl_cons, ih, XlsxDataValidation.applyAttr_formula2]

/-- Abstract description of one well-formed `dataValidation` child element:
its attribute list and the text bodies of its optional `formula1` and
`formula2` children. -/
structure DVSpec where
  attrs : List (String × String)
  f1 : Option String
  f2 : Option String

/-- Events of one optional text-content formula child: absent contributes no
events, present contributes start-tag, text, end-tag. -/
def formulaEvents (name : String) : Option String → List Event
  | none => []
  | some s => [Event.startTag name [], Event.text s, Event.endTag name]

/-- The event subtree of one well-formed `dataValidation` element in document
order. -/
def DVSpec.events (d : DVSpec) : List Event :=
  Event.startTag "dataValidation" d.attrs ::
    (formulaEvents "formula1" d.f1 ++
      (formulaEvents "formula2" d.f2 ++ [Event.endTag "dataValidation"]))

/-- The raw record that parsing one well-formed `dataValidation` element
produces: the attribute fold plus the formula bodies. -/
def DVSpec.interp (d : DVSpec) : XlsxDataValidation :=
  { d.attrs.foldl XlsxDataValidation.applyAttr XlsxDataValidation.empty with
      formula1 := d.f1, formula2 := d.f2 }

/-- Running the child phase over the serialized formula children stores each
present formula body and then stops at the element's own end-tag. -/
theorem XlsxDataValidation.childLoop_formulas (dv : XlsxDataValidation)
    (f1 f2 : Option String) (rest : List Event) :
    XlsxDataValidation.childLoop dv
      (formulaEvents "formula1" f1 ++
        (formulaEvents "formula2" f2 ++ (Event.endTag "dataValidation" :: rest)))
      = .ok { dv with formula1 := f1.elim dv.formula1 some,
                      formula2 := f2.elim dv.formula2 some } rest := by
  cases f1 <;> cases f2 <;>
    simp [formulaEvents, XlsxDataValidation.childLoop, XlsxDataValidation.load_formula]

/-- `XlsxDataValidation::load` on one well-formed serialized element followed
by any continuation consumes exactly the element and returns its
interpretation. -/
theorem XlsxDataValidation.load_DVSpec (d : DVSpec) (rest : List Event) :
    XlsxDataValidation.load d.attrs
      (formulaEvents "formula1" d.f1 ++
        (formulaEvents "formula2" d.f2 ++ (Event.endTag "dataValidation" :: rest)))
      = .ok d.interp rest := by
  unfold XlsxDataValidation.load DVSpec.interp
  rw [XlsxDataValidation.childLoop_formulas]
  rw [XlsxDataValidation.foldl_applyAttr_formula1, XlsxDataValidation.foldl_applyAttr_formula2]
  cases d.f1 <;> cases d.f2 <;> rfl

/-- Events of a well-formed `dataValidations` container body: the serialized
children in document order followed by the container's end-tag. -/
def containerEvents : List DVSpec → List Event
  | [] => [Event.endTag "dataValidations"]
  | d :: ds => d.events ++ containerEvents ds

theorem XlsxDataValidations.loadLoop_container (ds : List DVSpec) :
    ∀ acc : XlsxDataValidations,
      XlsxDataValidations.loadLoop acc (containerEvents ds)
        = .ok { acc with
                  data_validations := acc.data_validations ++ ds.map DVSpec.interp } [] := by
  induction ds with
  | nil =>
    intro acc
    simp [containerEvents, XlsxDataValidations.loadLoop]
  | cons d ds ih =>
    intro acc
    have hshape : containerEvents (d :: ds)
        = Event.startTag "dataValidation" d.attrs ::
            (formulaEvents "formula1" d.f1 ++
              (formulaEvents "formula2" d.f2 ++
                (Event.endTag "dataValidation" :: containerEvents ds))) := by
      simp [containerEvents, DVSpec.events]
    rw [hshape, XlsxDataValidations.loadLoop, if_pos rfl]
    split
    · next dv2 rest2 heq =>
        rw [XlsxDataValidation.load_DVSpec] at heq
        simp only [PRes.ok.injEq] at heq
        obtain ⟨h1, h2⟩ := heq
        subst h1; subst h2
        rw [ih]
        simp
    · next m heq =>
        rw [XlsxDataValidation.load_DVSpec] at heq
        simp at heq
    · next heq =>
        rw [XlsxDataValidation.load_DVSpec] at heq
        simp at heq

/-- C1: parsing
`<dataValidation type="list" allowBlank="1" showInputMessage="1"
showErrorMessage="1" sqref="A1:A10"><formula1>"Option1,Option2,Option3"</formula1></dataValidation>`
with `XlsxDataValidation::load` and then `DataValidation::from_raw` yields a
processed record with `type="list"`, `allow_blank=true`,
`show_input_message=true`, `show_error_message=true`, `show_drop_down=false`,
`sqref="A1:A10"`, `formula1=Some("\"Option1,Option2,Option3\"")` and
`formula2=None`. -/
theorem claim_C1_list_validation_scenario :
    XlsxDataValidation.load
      [("type", "list"), ("allowBlank", "1"), ("showInputMessage", "1"),
       ("showErrorMessage", "1"), ("sqref", "A1:A10")]
      [Event.startTag "formula1" [], Event.text "\"Option1,Option2,Option3\"",
       Event.endTag "formula1", Event.endTag "dataValidation"]
      = .ok
          { formula1 := some "\"Option1,Option2,Option3\"", formula2 := none,
            allow_blank := some true, error_message := none, error_title := none,
            operator := none, prompt := none, prompt_title := none,
            show_drop_down := none, show_error_message := some true,
            show_input_message := some true, sqref := some "A1:A10",
            type := some "list" } []
    ∧ DataValidation.from_raw
          { formula1 := some "\"Option1,Option2,Option3\"", formula2 := none,
            allow_blank := some true, error_message := none, error_title := none,
            operator := none, prompt := none, prompt_title := none,
            show_drop_down := none, show_error_message := some true,
            show_input_message := some true, sqref := some "A1:A10",
            type := some "list" }
        = { allow_blank := true, error_message := none, error_title := none,
            formula1 := some "\"Option1,Option2,Option3\"", formula2 := none,
            operator := none, prompt := none, prompt_title := none,
            show_drop_down := false, show_error_message := true,
            show_input_message := true, sqref := "A1:A10", type := "list" } := by
  constructor
  · simp [XlsxDataValidation.load, XlsxDataValidation.childLoop,
      XlsxDataValidation.load_formula, XlsxDataValidation.applyAttr,
      XlsxDataValidation.empty, string_to_bool]
  · rfl

/-- C2 (evidence for a code bug): at end of input, the `dataValidation`,
`dataValidations` and `sheetView` event loops fail with a fatal error naming
the unterminated element, as the claim states — but the formula text-capture
loop of `XlsxDataValidation::load_formula` has no `Eof` arm, so input
truncated immediately after a `formula1` start-tag makes the parse loop
forever instead of failing. -/
theorem claim_C2_unterminated_element :
    XlsxDataValidation.load_formula [] = .diverge
    ∧ XlsxDataValidation.load [] [Event.startTag "formula1" []] = .diverge
    ∧ XlsxDataValidation.load [] [] = .err "unexpected end of file at `dataValidation`"
    ∧ XlsxDataValidations.load [] = .err "unexpected end of file at `dataValidations`"
    ∧ XlsxSheetView.load [] = .err "unexpected end of file at `sheetView`" := by
  refine ⟨rfl, ?_, ?_, ?_, ?_⟩
  · simp [XlsxDataValidation.load, XlsxDataValidation.childLoop,
      XlsxDataValidation.load_formula]
  · simp [XlsxDataValidation.load, XlsxDataValidation.childLoop]
  · simp [XlsxDataValidations.load, XlsxDataValidations.loadLoop]
  · simp [XlsxSheetView.load, XlsxSheetView.loadLoop]

/-- C3 (counterexample): the claim says the attribute text `"1"` decodes to
`true` and `"0"` to `false` for the pane's thin-split-bar flags, but
`XlsxPane::load` parses them with Rust's `str::parse::<bool>`, which rejects
`"1"` and `"0"`, so the fields stay at no value. -/
theorem claim_C3_counterexample :
    (XlsxPane.load [("thinHorizontal", "1")]).thin_horizontal = none
    ∧ (XlsxPane.load [("thinHorizontal", "1")]).thin_horizontal ≠ some true
    ∧ (XlsxPane.load [("thinVertical", "0")]).thin_vertical = none
    ∧ (XlsxPane.load [("thinVertical", "0")]).thin_vertical ≠ some false := by
  refine ⟨?_, ?_, ?_, ?_⟩ <;> decide

/-- C3 (amended): the four boolean attributes of `dataValidation`
(`allowBlank`, `showDropDown`, `showErrorMessage`, `showInputMessage`) decode
via `string_to_bool`, which maps `"1"` and `"true"` to `true`, `"0"` and
`"false"` to `false`, and any other text to no value; the pane's
`thinHorizontal`/`thinVertical` decode via Rust's `str::parse::<bool>`,
which maps only `"true"` and `"false"`, and any other text — including `"1"`
and `"0"` — to no value.  Neither decoder ever raises an error. -/
theorem claim_C3_amended (v : String) :
    XlsxDataValidation.load
        [("allowBlank", v), ("showDropDown", v), ("showErrorMessage", v),
         ("showInputMessage", v)]
        [Event.endTag "dataValidation"]
      = .ok { XlsxDataValidation.empty with
                allow_blank := string_to_bool v, show_drop_down := string_to_bool v,
                show_error_message := string_to_bool v,
                show_input_message := string_to_bool v } []
    ∧ XlsxPane.load [("thinHorizontal", v), ("thinVertical", v)]
      = { XlsxPane.empty with
            thin_horizontal := rust_parse_bool v,
            thin_vertical := rust_parse_bool v }
    ∧ string_to_bool v
      = (if v = "1" ∨ v = "true" then some true
         else if v = "0" ∨ v = "false" then some false else none)
    ∧ rust_parse_bool v
      = (if v = "true" then some true
         else if v = "false" then some false else none) := by
  refine ⟨?_, ?_, rfl, rfl⟩
  · simp [XlsxDataValidation.load, XlsxDataValidation.childLoop,
      XlsxDataValidation.applyAttr, XlsxDataValidation.empty]
  · cases h : rust_parse_bool v <;>
      simp [XlsxPane.load, XlsxPane.applyAttr, XlsxPane.empty, h]

/-- C4: parsing the self-closing
`<pane xSplit="2310" ySplit="2070" topLeftCell="C1" activePane="bottomRight"/>`
inside a `sheetView` yields a pane record with `x_split=Some(2310.0)`,
`y_split=Some(2070.0)`, `top_left_cell=Some("C1")`,
`active_pane=Some("bottomRight")` and all split-pixel and thin-bar fields at
no value.  The self-closing tag is delivered by the cursor as a start-tag
immediately followed by its end-tag. -/
theorem claim_C4_pane_scenario :
    XlsxSheetView.load
      [Event.startTag "pane"
        [("xSplit", "2310"), ("ySplit", "2070"), ("topLeftCell", "C1"),
         ("activePane", "bottomRight")],
       Event.endTag "pane", Event.endTag "sheetView"]
      = .ok { pane := some {
                active_pane := some "bottomRight", state := none,
                top_left_cell := some "C1", x_split := some 2310,
                y_split := some 2070, split_horizontal := none,
                split_vertical := none, thin_horizontal := none,
                thin_vertical := none } } [] := by
  simp [XlsxSheetView.load, XlsxSheetView.loadLoop, read_to_end_into,
    XlsxPane.load, XlsxPane.applyAttr, XlsxPane.empty, string_to_float,
    decValue, splitDot, digitsToNat, digitsVal, String.toList]

/-- C5: a formula child whose end-tag arrives before any text event (a
self-closing or immediately-closed `formula1`) parses to `Some("")` — the
empty string — in the raw field, not no value and not an error. -/
theorem claim_C5_empty_formula :
    XlsxDataValidation.load []
      [Event.startTag "formula1" [], Event.endTag "formula1",
       Event.endTag "dataValidation"]
      = .ok { XlsxDataValidation.empty with formula1 := some "" } [] := by
  simp [XlsxDataValidation.load, XlsxDataValidation.childLoop,
    XlsxDataValidation.load_formula]

/-- C6: for every list of well-formed `dataValidation` child elements, the
container parse `XlsxDataValidations::load` returns exactly one rule record
per child, in the same document order (the result is the element-wise
interpretation of the serialized children, so it has the same length and
order). -/
theorem claim_C6_order_preservation (ds : List DVSpec) :
    XlsxDataValidations.load (containerEvents ds)
      = .ok { data_validations := ds.map DVSpec.interp, count := none } []
    ∧ (ds.map DVSpec.interp).length = ds.length := by
  constructor
  · unfold XlsxDataValidations.load
    rw [XlsxDataValidations.loadLoop_container]
    simp
  · simp

/-- C7: a `dataValidations` container with zero `dataValidation` children
parses successfully to an empty ordered sequence, not an error. -/
theorem claim_C7_empty_container :
    XlsxDataValidations.load [Event.endTag "dataValidations"]
      = .ok { data_validations := [], count := none } [] := by
  simp [XlsxDataValidations.load, XlsxDataValidations.loadLoop]

/-- C8 (counterexample): the claim says the processed validation type code
field remains optional and can be no value when the `type` attribute is
absent; but `DataValidation::from_raw` maps a raw record with an absent type
and one with an empty-string type to the same processed record, whose `type`
field is the non-optional empty string — absence is not representable in the
processed layer. -/
theorem claim_C8_counterexample :
    DataValidation.from_raw XlsxDataValidation.empty
      = DataValidation.from_raw { XlsxDataValidation.empty with type := some "" }
    ∧ (DataValidation.from_raw XlsxDataValidation.empty).type = "" := by
  exact ⟨rfl, rfl⟩

/-- C8 (amended): in the processed `DataValidation` record the validation
type code field is a non-optional string; `from_raw` defaults an absent
`type` attribute to the empty string, collapsing "absent" and "empty". -/
theorem claim_C8_amended (raw : XlsxDataValidation) :
    (DataValidation.from_raw raw).type = raw.type.getD ""
    ∧ DataValidation.from_raw { raw with type := none }
      = DataValidation.from_raw { raw with type := some "" } := by
  exact ⟨rfl, rfl⟩

/-- C9 (counterexample): the claim says a `count` attribute with valid
unsigned-integer text on the container's start-tag populates the raw `count`
field; but `XlsxDataValidations::load` never reads any attributes — even with
`count="3"` present the returned structure has `count = None`, not
`Some(3)`. -/
theorem claim_C9_counterexample :
    XlsxDataValidations.load
      [Event.startTag "dataValidations" [("count", "3")],
       Event.endTag "dataValidations"]
      = .ok { data_validations := [], count := none } []
    ∧ (none : Option Nat) ≠ some 3 := by
  constructor
  · simp [XlsxDataValidations.load, XlsxDataValidations.loadLoop]
  · simp

/-- C9 (amended): `XlsxDataValidations::load` takes no start-tag argument and
never assigns `count`, so the `count` field of every successfully returned
container is no value, whether or not the attribute was present in the
XML. -/
theorem claim_C9_amended (evs : List Event) (r : XlsxDataValidations)
    (rest : List Event) (h : XlsxDataValidations.load evs = .ok r rest) :
    r.count = none :=
  XlsxDataValidations.loadLoop_count _ _ h

theorem claim_C9_witness :
    ({ data_validations := [], count := none } : XlsxDataValidations).count = none :=
  claim_C9_amended [Event.endTag "dataValidations"] _ []
    (by simp [XlsxDataValidations.load, XlsxDataValidations.loadLoop])

/-- C10: the formula text-capture loop stops at an end-tag named either
`formula1` or `formula2`, whichever comes first, regardless of which formula
element was opened: a `</formula2>` end-tag seen during capture of a
`formula1` body (and symmetrically) ends the capture and yields the empty
string. -/
theorem claim_C10_cross_formula_end_tag (rest : List Event) :
    XlsxDataValidation.load_formula (Event.endTag "formula2" :: rest) = .ok "" rest
    ∧ XlsxDataValidation.load_formula (Event.endTag "formula1" :: rest) = .ok "" rest
    ∧ XlsxDataValidation.load []
        [Event.startTag "formula1" [], Event.endTag "formula2",
         Event.endTag "dataValidation"]
        = .ok { XlsxDataValidation.empty with formula1 := some "" } []
    ∧ XlsxDataValidation.load []
        [Event.startTag "formula2" [], Event.endTag "formula1",
         Event.endTag "dataValidation"]
        = .ok { XlsxDataValidation.empty with formula2 := some "" } [] := by
  refine ⟨?_, ?_, ?_, ?_⟩
  · simp [XlsxDataValidation.load_formula]
  · simp [XlsxDataValidation.load_formula]
  · simp [XlsxDataValidation.load, XlsxDataValidation.childLoop,
      XlsxDataValidation.load_formula]
  · simp [XlsxDataValidation.load, XlsxDataValidation.childLoop,
      XlsxDataValidation.load_formula]
